import Mathlib

/-!
Verification development for generator/locality_index_generator.cpp of the
geocore repository: the locality-index build pipeline.  The source file's own
functions (LocalityObjectBuilder::operator(), MakeGeometryHolder,
GenerateLocalityIndex, ParseNodes, the geo-objects feature filter,
GenerateGeoObjectsIndex) are embedded shallowly; collaborators that live
outside the file (geometry simplification, strip construction, convex hull,
string utilities, file handling, the parallel scheduler, the index builder)
are modelled from the specification at their interface boundary, each with a
doc comment saying so.  Machine reals are replaced by exact integer
coordinates, and fallible code returns Option / explicit outcome types.
-/

namespace Geocore

/-- Planar point with exact integer coordinates.  Models m2::PointD: exact
arithmetic stands in for floating point, so the hull's 1e-16 tolerance becomes
exact collinearity. -/
abbrev Point := Int × Int

/-- Default point used only to total out-of-range list indexing. -/
def origin : Point := (0, 0)

/-- Geometry kind of a raw feature (feature::GeomType). -/
inductive GeomType
  | Point
  | Line
  | Area
deriving DecidableEq

/-- OSM source-id kind (base::GeoObjectId, external). -/
inductive OsmIdType
  | Node
  | Way
  | Relation
deriving DecidableEq

/-- Numeric tag of an OSM id kind, used by the encoded form. -/
def OsmIdType.code : OsmIdType → Nat
  | .Node => 0
  | .Way => 1
  | .Relation => 2

/-- OSM identifier: a kind tag plus a serial number (base::GeoObjectId,
external collaborator). -/
structure OsmId where
  osmType : OsmIdType
  serialId : Nat
deriving DecidableEq

/-- Modelled from the spec: GetEncodedId of base::GeoObjectId (not under
src/): "a stable 64-bit identifier (encoded from its source-system id)".  The
kind tag occupies the two top bits of a 64-bit word, the serial the rest. -/
def OsmId.GetEncodedId (id : OsmId) : Nat :=
  id.osmType.code * 2 ^ 62 + id.serialId % 2 ^ 62

/-- A raw feature as the generator sees it (feature::FeatureBuilder, external;
the fields follow the spec's RawFeature data model): an OSM identifier, a
geometry kind, a representative (key) point, and the geometry rings
(m_polygons).  A point feature carries its single point as the key point only;
its ring list holds no usable point sequence. -/
structure Feature where
  osmId : OsmId
  geomType : GeomType
  keyPoint : Point
  polys : List (List Point)
deriving DecidableEq

/-- Modelled from the spec: GeometryHolder::GetSourcePoints
(generator/geometry_holder.hpp, not under src/) hands the simplifier the
feature's outer ring - the first ring of its geometry, empty when the feature
has none. -/
def sourcePoints (fb : Feature) : List Point :=
  fb.polys.headD []

/-- Modelled from the spec: feature::SimplifyPoints (generator code not under
src/), the GeometrySimplifier of spec section 4.1: a perpendicular-distance
based reduction that preserves the shape within the scale's tolerance, where
"Input with fewer than 2 points yields an empty output".  We take the
tolerance-zero member of that family: the identity on sequences of at least
two points, empty otherwise. -/
def simplifyPoints (pts : List Point) : List Point :=
  if 2 ≤ pts.length then pts else []

/-- Cross product of the vectors o->a and o->b; positive for a left turn. -/
def cross (o a b : Point) : Int :=
  (a.1 - o.1) * (b.2 - o.2) - (a.2 - o.2) * (b.1 - o.1)

/-- Turn made at cyclic position i of a ring: the cross product of the edge
into point i+1 and the edge out of it, indices read cyclically. -/
def cyclicCross (l : List Point) (i : Nat) : Int :=
  cross (l.getD (i % l.length) origin)
    (l.getD ((i + 1) % l.length) origin)
    (l.getD ((i + 2) % l.length) origin)

/-- A ring is strictly convex when all of its cyclic turns have one strict
sign; rings of fewer than 3 points count as trivially convex. -/
def isConvexCycle (l : List Point) : Bool :=
  decide (l.length < 3)
    || (List.range l.length).all (fun i => decide (0 < cyclicCross l i))
    || (List.range l.length).all (fun i => decide (cyclicCross l i < 0))

/-- Lexicographic order on points, x before y. -/
def lexLe (p q : Point) : Bool :=
  decide (p.1 < q.1) || (decide (p.1 = q.1) && decide (p.2 ≤ q.2))

/-- Insertion step of the lexicographic insertion sort. -/
def insertLex (p : Point) : List Point → List Point
  | [] => [p]
  | q :: rest => if lexLe p q then p :: q :: rest else q :: insertLex p rest

/-- Lexicographic insertion sort (kept structural so terms evaluate in the
kernel). -/
def sortLex (pts : List Point) : List Point :=
  pts.foldr insertLex []

/-- One step of the monotone-chain scan; the chain is kept reversed (most
recent point first) and points making a non-left turn are popped. -/
def addToChain (p : Point) : List Point → List Point
  | b :: a :: rest =>
    if cross a b p ≤ 0 then addToChain p (a :: rest) else p :: b :: a :: rest
  | l => p :: l

/-- Half hull of the monotone chain, reversed. -/
def halfChainRev (pts : List Point) : List Point :=
  pts.foldl (fun chain p => addToChain p chain) []

/-- Monotone-chain hull core: lower chain over the lexicographically sorted
distinct points, upper chain over their reversal, each chain's last point
dropped before concatenation (it reappears as the other chain's head). -/
def chainHull (pts : List Point) : List Point :=
  let s := sortLex pts.dedup
  if s.length ≤ 2 then s
  else
    let lower := (halfChainRev s).reverse
    let upper := (halfChainRev s.reverse).reverse
    lower.dropLast ++ upper.dropLast

/-- Modelled from the spec: m2::ConvexHull (geometry/convex_hull.hpp, not
under src/), "computing the 2D convex hull of the same point set (tolerance
of about 1e-16)".  Monotone chain over exact coordinates; the convex-position
postcondition is enforced by construction, a non-convex chain output (never
expected) being truncated to two points, so a degenerate hull has at most two
points.  Collinear point sets collapse to their two extremes. -/
def convexHull (pts : List Point) : List Point :=
  let h := chainHull pts
  if isConvexCycle h then h else h.take 2

/-- Modelled from the spec: GeometryHolder::TryToMakeStrip
(generator/geometry_holder.hpp, not under src/).  The fan/strip construction
"works for many simple polygons but is not guaranteed for all", and the
hull-fallback path always succeeds on a hull of at least 3 points; we model
success exactly on strictly convex rings of at least 3 points, the
inner-triangle buffer then holding the ring's point sequence as the strip. -/
def tryToMakeStrip (pts : List Point) : Option (List Point) :=
  if 3 ≤ pts.length ∧ isConvexCycle pts = true then some pts else none

/-- The point sequence MakeGeometryHolder hands the stripper for an area
feature (src lines 116-124): the simplified outer ring without its closing
duplicate, replaced by the flattening of all raw rings when the feature has
more than one ring. -/
def flattenedPoints (fb : Feature) : List Point :=
  let points := (simplifyPoints (sourcePoints fb)).dropLast
  if fb.polys.length ≠ 1 then fb.polys.flatten else points

/-- Geometry buffer of a holder (FeatureBuilder::SupportingData as the builder
reads it): inner line points and the inner triangle strip. -/
structure GeometryData where
  innerPts : List Point
  innerTrg : List Point
deriving DecidableEq

/-- Shallow embedding of LocalityObjectBuilder::MakeGeometryHolder (src lines
96-149): simplify the source geometry and bail out when empty; keep the
simplified points for a line; for an area, strip the flattened ring, retrying
on its convex hull, and bail out when both attempts fail or when the ring has
too few points. -/
def mkGeometryHolder (fb : Feature) : Option GeometryData :=
  let points := simplifyPoints (sourcePoints fb)
  if points.isEmpty then none
  else
    let linePts := if fb.geomType == GeomType.Line then points else []
    if fb.geomType == GeomType.Area then
      let pts := flattenedPoints fb
      if 2 < pts.length then
        match tryToMakeStrip pts with
        | some strip => some ⟨linePts, strip⟩
        | none =>
          match tryToMakeStrip (convexHull pts) with
          | some strip => some ⟨linePts, strip⟩
          | none => none
      else none
    else some ⟨linePts, []⟩

/-- Geometry payload of a locality object: a point list or a flat triangle
vertex list (indexer::LocalityObject, external). -/
inductive LocalityGeom
  | points (pts : List Point)
  | triangles (pts : List Point)
deriving DecidableEq

/-- The indexable output object: an id copied from the feature plus one
geometry payload. -/
structure LocalityObject where
  id : Nat
  geom : LocalityGeom
deriving DecidableEq

/-- Modelled from the spec: serial::StripToTriangles
(coding/geometry_coding.hpp, not under src/): unfolds a triangle strip of n
points into a flat list of 3 * (n - 2) triangle vertices, one triangle per
consecutive point triple, with alternating orientation. -/
def stripToTriangles (n : Nat) (strip : List Point) : List Point :=
  (List.range (n - 2)).flatMap fun i =>
    if i % 2 == 0 then
      [strip.getD i origin, strip.getD (i + 1) origin, strip.getD (i + 2) origin]
    else
      [strip.getD (i + 1) origin, strip.getD i origin, strip.getD (i + 2) origin]

/-- Shallow embedding of LocalityObjectBuilder::operator() (src lines 52-93).
The source's CHECK on the inner-triangle count - an aborting assertion - is
modelled as returning none; the development shows it never fires on a
successful holder. -/
def localityObjectBuilder (fb : Feature) : Option LocalityObject :=
  match mkGeometryHolder fb with
  | none => none
  | some data =>
    let encodedId := fb.osmId.GetEncodedId
    match fb.geomType with
    | .Point => some ⟨encodedId, .points [fb.keyPoint]⟩
    | .Line => some ⟨encodedId, .points data.innerPts⟩
    | .Area =>
      if 3 ≤ data.innerTrg.length then
        some ⟨encodedId, .triangles (stripToTriangles data.innerTrg.length data.innerTrg)⟩
      else none

/-- Content of the warning of src lines 136-138: the feature's OSM serial id
and kind, the point sequence handed to the stripper, and the hull points. -/
structure StripWarning where
  serialId : Nat
  osmType : OsmIdType
  origPoints : List Point
  hullPoints : List Point
deriving DecidableEq

/-- The diagnostic MakeGeometryHolder emits, mirrored from its control flow:
some exactly when both the direct strip and the hull retry fail. -/
def buildWarning (fb : Feature) : Option StripWarning :=
  let points := simplifyPoints (sourcePoints fb)
  if points.isEmpty then none
  else if fb.geomType == GeomType.Area then
    let pts := flattenedPoints fb
    if 2 < pts.length then
      match tryToMakeStrip pts with
      | some _ => none
      | none =>
        match tryToMakeStrip (convexHull pts) with
        | some _ => none
        | none => some ⟨fb.osmId.serialId, fb.osmId.osmType, pts, convexHull pts⟩
    else none
  else none

/-- The argument sequences of every TryToMakeStrip invocation
MakeGeometryHolder performs on a feature, in call order. -/
def stripperCalls (fb : Feature) : List (List Point) :=
  let points := simplifyPoints (sourcePoints fb)
  if points.isEmpty then []
  else if fb.geomType == GeomType.Area then
    let pts := flattenedPoints fb
    if 2 < pts.length then
      match tryToMakeStrip pts with
      | some _ => [pts]
      | none => [pts, convexHull pts]
    else []
  else []

/-- One covering entry: a (spatial cell id, stored object id) pair. -/
abbrev CoveringEntry := Nat × Nat

/-- The per-feature body of the worker processor (src lines 167-175): filter,
build, and cover the built object into the worker's accumulator; a feature the
filter rejects or the builder cannot handle contributes nothing. -/
def processFeature (filter : Feature → Bool)
    (cover : LocalityObject → List CoveringEntry) (fb : Feature) : List CoveringEntry :=
  if filter fb then
    match localityObjectBuilder fb with
    | some obj => cover obj
    | none => []
  else []

/-- Covering entries one worker accumulates over its feature sequence. -/
def processStream (filter : Feature → Bool)
    (cover : LocalityObject → List CoveringEntry) (fbs : List Feature) : List CoveringEntry :=
  fbs.flatMap (processFeature filter cover)

/-- Merge loop of src lines 187-192: partial coverings are appended while
popping from the back of the parts list, so the parts land in reverse
creation order. -/
def mergeCoverings (parts : List (List CoveringEntry)) : List CoveringEntry :=
  parts.reverse.flatten

/-- The merged covering GenerateLocalityIndex builds from the per-worker
feature assignments. -/
def mergedCovering (filter : Feature → Bool)
    (cover : LocalityObject → List CoveringEntry)
    (workers : List (List Feature)) : List CoveringEntry :=
  mergeCoverings (workers.map (processStream filter cover))

/-- Shallow embedding of GenerateLocalityIndex (src lines 156-201).  The
external scheduler (ProcessParallelFromDatRawFormat) is abstracted to the
per-worker feature lists it produces; cover and buildIndex stand for the
external index builder's Cover and BuildCoveringIndex. -/
def generateLocalityIndex (filter : Feature → Bool)
    (cover : LocalityObject → List CoveringEntry)
    (buildIndex : List CoveringEntry → Bool)
    (workers : List (List Feature)) : Bool :=
  if !buildIndex (mergedCovering filter cover workers) then false else true

/-- Modelled from the spec: strings::SimpleTokenizer over the delimiter set
" " (base/string_utils, not under src/): the line's "first
whitespace-delimited token", none when the line holds no token at all. -/
def firstToken (line : String) : Option String :=
  let tok := (line.toList.dropWhile (fun c => c == ' ')).takeWhile (fun c => c != ' ')
  if tok.isEmpty then none else some (String.mk tok)

/-- Value of a digit string read in base 10. -/
def decimalValue (cs : List Char) : Nat :=
  cs.foldl (fun acc c => acc * 10 + (c.toNat - 48)) 0

/-- Modelled from the spec: strings::to_uint64 (base/string_utils, not under
src/): "one unsigned 64-bit id per line" - a token parses exactly when it is a
nonempty all-digit string whose value fits in 64 bits. -/
def toUint64 (s : String) : Option Nat :=
  let cs := s.toList
  if cs ≠ [] ∧ cs.all Char.isDigit then
    let v := decimalValue cs
    if v < 2 ^ 64 then some v else none
  else none

/-- Outcome of ParseNodes: the collected ids, an unopenable file, or the
rejected line with its 1-based number and full content. -/
inductive ParseOutcome
  | success (nodeIds : List Nat)
  | openFailed
  | lineRejected (lineNumber : Nat) (content : String)
deriving DecidableEq

/-- Shallow embedding of the line loop of ParseNodes (src lines 217-231):
lineNumber starts at 1 and advances once per accepted line; a line with no
token, or whose first token does not parse, stops the loop with that line
reported. -/
def parseNodesLines (lineNumber : Nat) (acc : List Nat) : List String → ParseOutcome
  | [] => .success acc
  | line :: rest =>
    match firstToken line with
    | none => .lineRejected lineNumber line
    | some tok =>
      match toUint64 tok with
      | none => .lineRejected lineNumber line
      | some n => parseNodesLines (lineNumber + 1) (if n ∈ acc then acc else acc ++ [n]) rest

/-- Shallow embedding of ParseNodes (src lines 205-233) at file level: none
models a file that cannot be opened. -/
def parseNodes : Option (List String) → ParseOutcome
  | none => .openFailed
  | some lines => parseNodesLines 1 [] lines

/-- Shallow embedding of the geo-objects featuresFilter lambda (src lines
257-271).  The classifiers IsBuilding / HasHouse / IsStreet / IsPoi live in
filter code outside src/ and are abstract predicate parameters. -/
def featuresFilter (isBuilding isHouse isStreet isPoi : Feature → Bool)
    (nodeIds : List Nat) (allowStreet allowPoi : Bool) (fb : Feature) : Bool :=
  if isBuilding fb || isHouse fb then true
  else if allowStreet && isStreet fb then true
  else if allowPoi && isPoi fb then nodeIds.contains fb.osmId.GetEncodedId
  else false

/-- Externally visible effects of a geo-objects run, in order. -/
inductive RunEvent
  | nodesOpenFailed
  | nodesLineRejected (lineNumber : Nat) (content : String)
  | fileAppended (sourceFile targetFile : String)
  | pipelineRan (featuresFile : String) (chunkFeaturesCount : Nat) (ok : Bool)
  | tmpFileRemoved (file : String)
deriving DecidableEq

/-- Modelled from the spec: base::GetDirectory (not under src/), the path up
to and including its final slash. -/
def dirName (path : String) : String :=
  String.mk (path.toList.reverse.dropWhile (fun c => c != '/')).reverse

/-- Modelled from the spec: the temporary combined features file, named
"geo_objects_and_streets" plus the temporary data extension, placed in the
geo-objects file's directory (src lines 281-283). -/
def combinedTmpFile (geoObjectsFeaturesFile : String) : String :=
  dirName geoObjectsFeaturesFile ++ "geo_objects_and_streets.dat.tmp"

/-- Outcome of the allow-list step of GenerateGeoObjectsIndex (src lines
251-253): no supplied file means an empty id set, otherwise ParseNodes runs;
nodesFile is none when no allow-list is supplied, some none when the supplied
file cannot be opened, some (some lines) otherwise. -/
def nodesOutcome : Option (Option (List String)) → ParseOutcome
  | none => .success []
  | some contents => parseNodes contents

/-- Shallow embedding of GenerateGeoObjectsIndex (src lines 245-291).  File
contents stand in beside file names; streets carries the streets file name and
its features when supplied, the two feature streams then being concatenated as
the appends to the temporary file do.  distribute models the external
scheduler: given the chunk size it splits a stream into per-worker feature
lists.  The returned event list records the run's externally visible effects
in order. -/
def generateGeoObjectsIndex
    (geoObjectsFeaturesFile : String) (geoObjectsFeatures : List Feature)
    (nodesFile : Option (Option (List String)))
    (streets : Option (String × List Feature))
    (isBuilding isHouse isStreet isPoi : Feature → Bool)
    (cover : LocalityObject → List CoveringEntry)
    (buildIndex : List CoveringEntry → Bool)
    (distribute : Nat → List Feature → List (List Feature)) : Bool × List RunEvent :=
  match nodesOutcome nodesFile with
  | .openFailed => (false, [.nodesOpenFailed])
  | .lineRejected n line => (false, [.nodesLineRejected n line])
  | .success nodeIds =>
    let allowStreet := streets.isSome
    let allowPoi := !nodeIds.isEmpty
    let filter := featuresFilter isBuilding isHouse isStreet isPoi nodeIds allowStreet allowPoi
    match streets with
    | none =>
      let ok := generateLocalityIndex filter cover buildIndex (distribute 10 geoObjectsFeatures)
      (ok, [.pipelineRan geoObjectsFeaturesFile 10 ok])
    | some (streetsFeaturesFile, streetsFeatures) =>
      let tmp := combinedTmpFile geoObjectsFeaturesFile
      let combined := geoObjectsFeatures ++ streetsFeatures
      let ok := generateLocalityIndex filter cover buildIndex (distribute 100 combined)
      (ok,
        [.fileAppended geoObjectsFeaturesFile tmp,
         .fileAppended streetsFeaturesFile tmp,
         .pipelineRan tmp 100 ok,
         .tmpFileRemoved tmp])

/-- Point feature of OSM node 7: its single point lives in the key point, the
ring list holding no usable sequence (the RawFeature data model). -/
def pointFeatureNode7 : Feature :=
  ⟨⟨OsmIdType.Node, 7⟩, GeomType.Point, (1, 2), []⟩

/-- Convex square area feature used as a concrete successful build. -/
def squareAreaFeature : Feature :=
  ⟨⟨OsmIdType.Way, 11⟩, GeomType.Area, (5, 5),
    [[(0, 0), (10, 0), (10, 10), (0, 10), (0, 0)]]⟩

/-- The object Build produces from squareAreaFeature. -/
def squareBuiltObject : LocalityObject :=
  ⟨2 ^ 62 + 11,
    .triangles [(0, 0), (10, 0), (10, 10), (10, 10), (10, 0), (0, 10)]⟩

/-- Non-convex quadrilateral ring whose direct strip fails while its hull is a
proper triangle. -/
def nonConvexQuadFeature : Feature :=
  ⟨⟨OsmIdType.Way, 21⟩, GeomType.Area, (1, 1),
    [[(0, 0), (4, 0), (1, 1), (0, 4), (0, 0)]]⟩

/-- Collinear degenerate area ring: the direct strip fails and the hull
collapses to two points, so the hull retry fails as well. -/
def collinearAreaFeature : Feature :=
  ⟨⟨OsmIdType.Way, 33⟩, GeomType.Area, (1, 1),
    [[(0, 0), (1, 1), (2, 2), (0, 0)]]⟩

/-- Point-of-interest feature of OSM node n (encoded id equals n for nodes
with small serials). -/
def poiFeature (n : Nat) : Feature :=
  ⟨⟨OsmIdType.Node, n⟩, GeomType.Point, (0, 0), []⟩

/-- Rings of fewer than 3 points are trivially convex. -/
theorem isConvexCycle_short (l : List Point) (h : l.length < 3) :
    isConvexCycle l = true := by
  simp [isConvexCycle, h]

/-- A hull output of at least 3 points is strictly convex: by construction the
hull either passes the convexity check or is truncated to two points. -/
theorem convexHull_convex_of_three_le (pts : List Point)
    (h3 : 3 ≤ (convexHull pts).length) : isConvexCycle (convexHull pts) = true := by
  unfold convexHull at h3 ⊢
  by_cases hc : isConvexCycle (chainHull pts) = true
  · rw [if_pos hc]
    exact hc
  · rw [if_neg hc] at h3
    have : ((chainHull pts).take 2).length ≤ 2 := by
      rw [List.length_take]
      omega
    omega

/-- The strip retry on a hull of at least 3 points succeeds. -/
theorem tryToMakeStrip_hull_isSome (pts : List Point)
    (h3 : 3 ≤ (convexHull pts).length) :
    (tryToMakeStrip (convexHull pts)).isSome = true := by
  have hcc := convexHull_convex_of_three_le pts h3
  unfold tryToMakeStrip
  rw [if_pos ⟨h3, hcc⟩]
  rfl

/-- Successful strip construction returns the input ring, which has at least 3
points. -/
theorem tryToMakeStrip_eq_some (pts s : List Point)
    (h : tryToMakeStrip pts = some s) : s = pts ∧ 3 ≤ pts.length := by
  unfold tryToMakeStrip at h
  by_cases hc : 3 ≤ pts.length ∧ isConvexCycle pts = true
  · rw [if_pos hc] at h
    exact ⟨(Option.some.injEq _ _ ▸ h).symm, hc.1⟩
  · rw [if_neg hc] at h
    exact absurd h (by simp)

/-- Unfolding a strip of n points yields 3 * (n - 2) triangle vertices. -/
theorem length_stripToTriangles (n : Nat) (strip : List Point) :
    (stripToTriangles n strip).length = 3 * (n - 2) := by
  unfold stripToTriangles
  generalize n - 2 = m
  induction m with
  | zero => rfl
  | succ k ih =>
    rw [List.range_succ, List.flatMap_append, List.length_append, ih,
      List.flatMap_cons, List.flatMap_nil, List.append_nil]
    have h3 : (if (k % 2 == 0) = true
        then [strip.getD k origin, strip.getD (k + 1) origin, strip.getD (k + 2) origin]
        else [strip.getD (k + 1) origin, strip.getD k origin, strip.getD (k + 2) origin]).length
        = 3 := by
      by_cases hk : (k % 2 == 0) = true
      · rw [if_pos hk]; rfl
      · rw [if_neg hk]; rfl
    rw [h3]
    ring

/-- On an area feature whose simplified source survives and whose flattened
ring has more than 2 points, MakeGeometryHolder reduces to the strip attempt
with hull retry. -/
theorem mkGeometryHolder_area_eq (fb : Feature)
    (harea : fb.geomType = GeomType.Area)
    (hsimp : simplifyPoints (sourcePoints fb) ≠ [])
    (hlen : 2 < (flattenedPoints fb).length) :
    mkGeometryHolder fb =
      match tryToMakeStrip (flattenedPoints fb) with
      | some strip => some ⟨[], strip⟩
      | none =>
        match tryToMakeStrip (convexHull (flattenedPoints fb)) with
        | some strip => some ⟨[], strip⟩
        | none => none := by
  unfold mkGeometryHolder
  have hne : (simplifyPoints (sourcePoints fb)).isEmpty = false := by
    simpa [List.isEmpty_iff] using hsimp
  simp [hne, harea, hlen]

/-- Under the same conditions the emitted stripper calls are the flattened
ring and then, when the direct attempt fails, its hull. -/
theorem stripperCalls_area_eq (fb : Feature)
    (harea : fb.geomType = GeomType.Area)
    (hsimp : simplifyPoints (sourcePoints fb) ≠ [])
    (hlen : 2 < (flattenedPoints fb).length)
    (hfail : tryToMakeStrip (flattenedPoints fb) = none) :
    stripperCalls fb = [flattenedPoints fb, convexHull (flattenedPoints fb)] := by
  unfold stripperCalls
  have hne : (simplifyPoints (sourcePoints fb)).isEmpty = false := by
    simpa [List.isEmpty_iff] using hsimp
  simp [hne, harea, hlen, hfail]

/-- Under the same conditions the warning mirrors the two strip attempts. -/
theorem buildWarning_area_eq (fb : Feature)
    (harea : fb.geomType = GeomType.Area)
    (hsimp : simplifyPoints (sourcePoints fb) ≠ [])
    (hlen : 2 < (flattenedPoints fb).length) :
    buildWarning fb =
      match tryToMakeStrip (flattenedPoints fb) with
      | some _ => none
      | none =>
        match tryToMakeStrip (convexHull (flattenedPoints fb)) with
        | some _ => none
        | none => some ⟨fb.osmId.serialId, fb.osmId.osmType, flattenedPoints fb,
            convexHull (flattenedPoints fb)⟩ := by
  unfold buildWarning
  have hne : (simplifyPoints (sourcePoints fb)).isEmpty = false := by
    simpa [List.isEmpty_iff] using hsimp
  simp [hne, harea, hlen]

/-- Claim C3: every Area feature on which Build succeeds yields a triangle
payload that is nonempty and whose vertex count is a positive multiple of 3. -/
theorem area_build_triangle_count (fb : Feature) (obj : LocalityObject)
    (harea : fb.geomType = GeomType.Area)
    (hbuild : localityObjectBuilder fb = some obj) :
    ∃ tris, obj.geom = LocalityGeom.triangles tris ∧ tris ≠ [] ∧ tris.length % 3 = 0 := by
  unfold localityObjectBuilder at hbuild
  cases hmk : mkGeometryHolder fb with
  | none =>
    rw [hmk] at hbuild
    exact absurd hbuild (by simp)
  | some data =>
    rw [hmk] at hbuild
    simp only [harea] at hbuild
    by_cases h3 : 3 ≤ data.innerTrg.length
    · rw [if_pos h3] at hbuild
      have hobj := (Option.some.injEq _ _ ▸ hbuild)
      refine ⟨stripToTriangles data.innerTrg.length data.innerTrg, ?_, ?_, ?_⟩
      · rw [← hobj]
      · have hl := length_stripToTriangles data.innerTrg.length data.innerTrg
        intro hnil
        rw [hnil] at hl
        simp at hl
        omega
      · rw [length_stripToTriangles]
        omega
    · rw [if_neg h3] at hbuild
      exact absurd hbuild (by simp)

/-- Witness for C3 at the convex square feature. -/
theorem area_build_triangle_count_witness :
    squareAreaFeature.geomType = GeomType.Area ∧
    localityObjectBuilder squareAreaFeature = some squareBuiltObject ∧
    (∃ tris, squareBuiltObject.geom = LocalityGeom.triangles tris ∧
      tris ≠ [] ∧ tris.length % 3 = 0) :=
  ⟨rfl, by decide,
    area_build_triangle_count squareAreaFeature squareBuiltObject rfl (by decide)⟩

/-- Claim C4: when the direct strip fails but the hull has at least 3 points,
the hull retry succeeds (so the holder is built) and every stripper invocation
receives at least 3 points. -/
theorem hull_fallback_strip_succeeds (fb : Feature)
    (harea : fb.geomType = GeomType.Area)
    (hsimp : simplifyPoints (sourcePoints fb) ≠ [])
    (hlen : 2 < (flattenedPoints fb).length)
    (hfail : tryToMakeStrip (flattenedPoints fb) = none)
    (hhull : 3 ≤ (convexHull (flattenedPoints fb)).length) :
    (tryToMakeStrip (convexHull (flattenedPoints fb))).isSome = true ∧
    (mkGeometryHolder fb).isSome = true ∧
    ∀ c ∈ stripperCalls fb, 3 ≤ c.length := by
  have hsome := tryToMakeStrip_hull_isSome (flattenedPoints fb) hhull
  refine ⟨hsome, ?_, ?_⟩
  · rw [mkGeometryHolder_area_eq fb harea hsimp hlen, hfail]
    cases hr : tryToMakeStrip (convexHull (flattenedPoints fb)) with
    | none =>
      rw [hr] at hsome
      exact absurd hsome (by simp)
    | some s => simp
  · rw [stripperCalls_area_eq fb harea hsimp hlen hfail]
    intro c hc
    rcases List.mem_pair.mp hc with h | h
    · rw [h]; omega
    · rw [h]; exact hhull

/-- Witness for C4 at the non-convex quadrilateral whose hull is a triangle. -/
theorem hull_fallback_strip_succeeds_witness :
    (nonConvexQuadFeature.geomType = GeomType.Area ∧
      simplifyPoints (sourcePoints nonConvexQuadFeature) ≠ [] ∧
      2 < (flattenedPoints nonConvexQuadFeature).length ∧
      tryToMakeStrip (flattenedPoints nonConvexQuadFeature) = none ∧
      3 ≤ (convexHull (flattenedPoints nonConvexQuadFeature)).length) ∧
    ((tryToMakeStrip (convexHull (flattenedPoints nonConvexQuadFeature))).isSome = true ∧
      (mkGeometryHolder nonConvexQuadFeature).isSome = true ∧
      ∀ c ∈ stripperCalls nonConvexQuadFeature, 3 ≤ c.length) :=
  ⟨⟨rfl, by decide, by decide, by decide, by decide⟩,
    hull_fallback_strip_succeeds nonConvexQuadFeature rfl (by decide) (by decide)
      (by decide) (by decide)⟩

/-- A feature the builder cannot handle contributes no covering entries. -/
theorem processFeature_eq_nil (filter : Feature → Bool)
    (cover : LocalityObject → List CoveringEntry) (fb : Feature)
    (hnone : localityObjectBuilder fb = none) :
    processFeature filter cover fb = [] := by
  unfold processFeature
  rw [hnone]
  by_cases hf : filter fb = true
  · rw [if_pos hf]
  · rw [if_neg hf]

/-- Claim C5: when the hull retry also fails, the warning carrying the
feature's serial id, kind, stripped points and hull points is emitted, Build
returns none, and the stream processing of every surrounding feature sequence
is unaffected. -/
theorem strip_failure_warns_and_skips (fb : Feature)
    (harea : fb.geomType = GeomType.Area)
    (hsimp : simplifyPoints (sourcePoints fb) ≠ [])
    (hlen : 2 < (flattenedPoints fb).length)
    (hfail : tryToMakeStrip (flattenedPoints fb) = none)
    (hretry : tryToMakeStrip (convexHull (flattenedPoints fb)) = none) :
    buildWarning fb = some ⟨fb.osmId.serialId, fb.osmId.osmType, flattenedPoints fb,
      convexHull (flattenedPoints fb)⟩ ∧
    localityObjectBuilder fb = none ∧
    ∀ (filter : Feature → Bool) (cover : LocalityObject → List CoveringEntry)
      (pre post : List Feature),
      processStream filter cover (pre ++ fb :: post) =
        processStream filter cover pre ++ processStream filter cover post := by
  have hmk : mkGeometryHolder fb = none := by
    rw [mkGeometryHolder_area_eq fb harea hsimp hlen, hfail, hretry]
  have hbuild : localityObjectBuilder fb = none := by
    unfold localityObjectBuilder
    rw [hmk]
  refine ⟨?_, hbuild, ?_⟩
  · rw [buildWarning_area_eq fb harea hsimp hlen, hfail, hretry]
  · intro filter cover pre post
    unfold processStream
    rw [List.flatMap_append, List.flatMap_cons,
      processFeature_eq_nil filter cover fb hbuild, List.nil_append]

/-- Witness for C5 at the collinear degenerate ring. -/
theorem strip_failure_warns_and_skips_witness :
    (collinearAreaFeature.geomType = GeomType.Area ∧
      simplifyPoints (sourcePoints collinearAreaFeature) ≠ [] ∧
      2 < (flattenedPoints collinearAreaFeature).length ∧
      tryToMakeStrip (flattenedPoints collinearAreaFeature) = none ∧
      tryToMakeStrip (convexHull (flattenedPoints collinearAreaFeature)) = none) ∧
    (buildWarning collinearAreaFeature = some ⟨collinearAreaFeature.osmId.serialId,
        collinearAreaFeature.osmId.osmType, flattenedPoints collinearAreaFeature,
        convexHull (flattenedPoints collinearAreaFeature)⟩ ∧
      localityObjectBuilder collinearAreaFeature = none ∧
      ∀ (filter : Feature → Bool) (cover : LocalityObject → List CoveringEntry)
        (pre post : List Feature),
        processStream filter cover (pre ++ collinearAreaFeature :: post) =
          processStream filter cover pre ++ processStream filter cover post) :=
  ⟨⟨rfl, by decide, by decide, by decide, by decide⟩,
    strip_failure_warns_and_skips collinearAreaFeature rfl (by decide) (by decide)
      (by decide) (by decide)⟩

/-- Concatenating per-worker streams before processing equals processing each
worker's stream and concatenating. -/
theorem processStream_flatten_map (filter : Feature → Bool)
    (cover : LocalityObject → List CoveringEntry) (ws : List (List Feature)) :
    (ws.map (processStream filter cover)).flatten = processStream filter cover ws.flatten := by
  induction ws with
  | nil => rfl
  | cons w rest ih =>
    rw [List.map_cons, List.flatten_cons, ih, List.flatten_cons]
    unfold processStream
    rw [List.flatMap_append]

/-- Claim C1: for every stream and every distribution of its features over
workers (the workers' features forming a permutation of the stream), the
merged covering is a permutation - the same unordered multiset - of the
covering a single worker computes over the whole stream in one pass. -/
theorem merged_covering_matches_single_pass (filter : Feature → Bool)
    (cover : LocalityObject → List CoveringEntry)
    (workers : List (List Feature)) (stream : List Feature)
    (hperm : workers.flatten.Perm stream) :
    (mergedCovering filter cover workers).Perm (processStream filter cover stream) := by
  unfold mergedCovering mergeCoverings
  refine ((List.reverse_perm _).flatten).trans ?_
  rw [processStream_flatten_map]
  unfold processStream
  have hdef : ∀ (l : List Feature), l.flatMap (processFeature filter cover)
      = (l.map (processFeature filter cover)).flatten := by
    intro l
    induction l with
    | nil => rfl
    | cons x xs ih => rw [List.flatMap_cons, List.map_cons, List.flatten_cons, ih]
  rw [hdef, hdef]
  exact (hperm.map _).flatten

/-- Witness for C1: two workers holding the stream's two features in swapped
order produce the single-pass covering up to permutation. -/
theorem merged_covering_matches_single_pass_witness :
    ([[pointFeatureNode7], [squareAreaFeature]] : List (List Feature)).flatten.Perm
      [squareAreaFeature, pointFeatureNode7] ∧
    (mergedCovering (fun fb => fb.geomType == GeomType.Area) (fun obj => [(1, obj.id)])
        [[pointFeatureNode7], [squareAreaFeature]]).Perm
      (processStream (fun fb => fb.geomType == GeomType.Area) (fun obj => [(1, obj.id)])
        [squareAreaFeature, pointFeatureNode7]) :=
  ⟨List.Perm.swap squareAreaFeature pointFeatureNode7 [],
    merged_covering_matches_single_pass _ _ _ _
      (List.Perm.swap squareAreaFeature pointFeatureNode7 [])⟩

/-- Claim C6: GenerateLocalityIndex propagates the external index builder's
boolean unchanged - false exactly when BuildCoveringIndex on the merged
covering is false, true exactly when it is true. -/
theorem generate_locality_index_propagates (filter : Feature → Bool)
    (cover : LocalityObject → List CoveringEntry)
    (buildIndex : List CoveringEntry → Bool) (workers : List (List Feature)) :
    (generateLocalityIndex filter cover buildIndex workers = false ↔
      buildIndex (mergedCovering filter cover workers) = false) ∧
    (generateLocalityIndex filter cover buildIndex workers = true ↔
      buildIndex (mergedCovering filter cover workers) = true) := by
  unfold generateLocalityIndex
  cases h : buildIndex (mergedCovering filter cover workers) <;> simp [h]

/-- Claim C2 evaluated at the failing input: for the canonical point feature -
its geometry held only as the representative key point, so the holder's source
sequence has fewer than two points - Build returns none instead of the claimed
one-point object, because MakeGeometryHolder's simplification step empties the
sequence before the Point branch of the builder can run. -/
theorem point_feature_build_returns_none :
    localityObjectBuilder pointFeatureNode7 = none ∧
    mkGeometryHolder pointFeatureNode7 = none := by
  exact ⟨rfl, rfl⟩

/-- A prefix whose every line parses advances the loop's line counter past the
prefix without failing. -/
theorem parseNodesLines_skips_good_lines (rest : List String) :
    ∀ (pre : List String),
      (∀ l ∈ pre, ((firstToken l).bind toUint64).isSome = true) →
      ∀ (k : Nat) (acc : List Nat), ∃ acc2,
        parseNodesLines k acc (pre ++ rest) = parseNodesLines (k + pre.length) acc2 rest := by
  intro pre
  induction pre with
  | nil =>
    intro _ k acc
    exact ⟨acc, by simp⟩
  | cons l pre ih =>
    intro hpre k acc
    have hl := hpre l (by simp)
    cases h1 : firstToken l with
    | none =>
      rw [h1] at hl
      exact absurd hl (by simp)
    | some tok =>
      cases h2 : toUint64 tok with
      | none =>
        rw [h1] at hl
        simp [h2] at hl
      | some n =>
        obtain ⟨acc2, heq⟩ := ih (fun x hx => hpre x (by simp [hx])) (k + 1)
          (if n ∈ acc then acc else acc ++ [n])
        refine ⟨acc2, ?_⟩
        have harith : k + (l :: pre).length = k + 1 + pre.length := by
          simp [List.length_cons]
          omega
        rw [List.cons_append]
        simp only [parseNodesLines, h1, h2]
        rw [heq, harith]

/-- A line with a missing or unparseable first token anywhere in the file
keeps the loop from succeeding. -/
theorem parseNodesLines_no_success (line : String)
    (hbad : (firstToken line).bind toUint64 = none) :
    ∀ (lines : List String), line ∈ lines →
      ∀ (k : Nat) (acc ids : List Nat),
        parseNodesLines k acc lines ≠ ParseOutcome.success ids := by
  intro lines
  induction lines with
  | nil =>
    intro h
    exact absurd h (List.not_mem_nil line)
  | cons l rest ih =>
    intro hmem k acc ids
    cases h1 : firstToken l with
    | none => simp [parseNodesLines, h1]
    | some tok =>
      cases h2 : toUint64 tok with
      | none => simp [parseNodesLines, h1, h2]
      | some n =>
        have hne : l ≠ line := by
          intro he
          subst he
          rw [h1] at hbad
          simp [h2] at hbad
        have hmem2 : line ∈ rest := by
          rcases List.mem_cons.mp hmem with h | h
          · exact absurd h.symm hne
          · exact h
        simp only [parseNodesLines, h1, h2]
        exact ih hmem2 (k + 1) _ ids

/-- The line loop never reports an unopenable file. -/
theorem parseNodesLines_ne_openFailed :
    ∀ (lines : List String) (k : Nat) (acc : List Nat),
      parseNodesLines k acc lines ≠ ParseOutcome.openFailed := by
  intro lines
  induction lines with
  | nil =>
    intro k acc
    simp [parseNodesLines]
  | cons l rest ih =>
    intro k acc
    cases h1 : firstToken l with
    | none => simp [parseNodesLines, h1]
    | some tok =>
      cases h2 : toUint64 tok with
      | none => simp [parseNodesLines, h1, h2]
      | some n =>
        simp only [parseNodesLines, h1, h2]
        exact ih _ _

/-- A rejected allow-list line makes the geo-objects run return false with
only the rejection event - no append, no pipeline run. -/
theorem geoObjects_rejected_eq
    (geoFile : String) (geoFeatures : List Feature)
    (contents : Option (List String)) (streets : Option (String × List Feature))
    (isBuilding isHouse isStreet isPoi : Feature → Bool)
    (cover : LocalityObject → List CoveringEntry)
    (buildIndex : List CoveringEntry → Bool)
    (distribute : Nat → List Feature → List (List Feature))
    (n : Nat) (line : String)
    (hpn : parseNodes contents = ParseOutcome.lineRejected n line) :
    generateGeoObjectsIndex geoFile geoFeatures (some contents) streets
        isBuilding isHouse isStreet isPoi cover buildIndex distribute
      = (false, [RunEvent.nodesLineRejected n line]) := by
  have h2 : nodesOutcome (some contents) = ParseOutcome.lineRejected n line := hpn
  unfold generateGeoObjectsIndex
  rw [h2]

/-- Claim C7: an unopenable allow-list file, and any allow-list file holding a
line whose first token does not parse as an unsigned 64-bit id, abort the
geo-objects run (false) before any feature is read or any pipeline work
starts, the parse failure reported with the offending line's number and
content. -/
theorem nodes_file_errors_abort_run
    (geoFile : String) (geoFeatures : List Feature)
    (streets : Option (String × List Feature))
    (isBuilding isHouse isStreet isPoi : Feature → Bool)
    (cover : LocalityObject → List CoveringEntry)
    (buildIndex : List CoveringEntry → Bool)
    (distribute : Nat → List Feature → List (List Feature)) :
    generateGeoObjectsIndex geoFile geoFeatures (some none) streets
        isBuilding isHouse isStreet isPoi cover buildIndex distribute
      = (false, [RunEvent.nodesOpenFailed]) ∧
    (∀ (lines : List String) (n : Nat) (line : String),
      parseNodes (some lines) = ParseOutcome.lineRejected n line →
      generateGeoObjectsIndex geoFile geoFeatures (some (some lines)) streets
          isBuilding isHouse isStreet isPoi cover buildIndex distribute
        = (false, [RunEvent.nodesLineRejected n line])) ∧
    (∀ (lines : List String) (line : String), line ∈ lines →
      (firstToken line).bind toUint64 = none →
      ∃ (n : Nat) (l : String),
        parseNodes (some lines) = ParseOutcome.lineRejected n l ∧
        generateGeoObjectsIndex geoFile geoFeatures (some (some lines)) streets
            isBuilding isHouse isStreet isPoi cover buildIndex distribute
          = (false, [RunEvent.nodesLineRejected n l])) := by
  refine ⟨rfl, ?_, ?_⟩
  · intro lines n line hpn
    exact geoObjects_rejected_eq geoFile geoFeatures (some lines) streets
      isBuilding isHouse isStreet isPoi cover buildIndex distribute n line hpn
  · intro lines line hmem hbad
    cases houtcome : parseNodes (some lines) with
    | success ids =>
      exact absurd houtcome (parseNodesLines_no_success line hbad lines hmem 1 [] ids)
    | openFailed =>
      exact absurd houtcome (parseNodesLines_ne_openFailed lines 1 [])
    | lineRejected n l =>
      exact ⟨n, l, rfl,
        geoObjects_rejected_eq geoFile geoFeatures (some lines) streets
          isBuilding isHouse isStreet isPoi cover buildIndex distribute n l houtcome⟩

/-- Witness for C7: the file whose second line is "abc" is rejected at line 2
and the run aborts reporting line 2 with that content. -/
theorem nodes_file_errors_abort_run_witness :
    parseNodes (some ["10", "abc"]) = ParseOutcome.lineRejected 2 "abc" ∧
    generateGeoObjectsIndex "geo.dat" [] (some (some ["10", "abc"])) none
        (fun _ => false) (fun _ => false) (fun _ => false) (fun _ => false)
        (fun _ => []) (fun _ => true) (fun _ fs => [fs])
      = (false, [RunEvent.nodesLineRejected 2 "abc"]) :=
  ⟨by decide,
    (nodes_file_errors_abort_run "geo.dat" [] none (fun _ => false) (fun _ => false)
        (fun _ => false) (fun _ => false) (fun _ => []) (fun _ => true)
        (fun _ fs => [fs])).2.1 ["10", "abc"] 2 "abc" (by decide)⟩

/-- Claim C10: a line with no token at all (empty or all blanks) is treated as
an unparseable id: ParseNodes rejects it - reporting that line's number and
content when all earlier lines are good - and the geo-objects run aborts. -/
theorem tokenless_line_rejected (pre post : List String) (line : String)
    (hblank : firstToken line = none)
    (hpre : ∀ l ∈ pre, ((firstToken l).bind toUint64).isSome = true) :
    parseNodes (some (pre ++ line :: post))
      = ParseOutcome.lineRejected (pre.length + 1) line ∧
    (∀ ids : List Nat,
      parseNodes (some (pre ++ line :: post)) ≠ ParseOutcome.success ids) ∧
    ∀ (geoFile : String) (geoFeatures : List Feature)
      (streets : Option (String × List Feature))
      (isBuilding isHouse isStreet isPoi : Feature → Bool)
      (cover : LocalityObject → List CoveringEntry)
      (buildIndex : List CoveringEntry → Bool)
      (distribute : Nat → List Feature → List (List Feature)),
      generateGeoObjectsIndex geoFile geoFeatures (some (some (pre ++ line :: post)))
          streets isBuilding isHouse isStreet isPoi cover buildIndex distribute
        = (false, [RunEvent.nodesLineRejected (pre.length + 1) line]) := by
  have hrej : parseNodes (some (pre ++ line :: post))
      = ParseOutcome.lineRejected (pre.length + 1) line := by
    obtain ⟨acc2, heq⟩ := parseNodesLines_skips_good_lines (line :: post) pre hpre 1 []
    show parseNodesLines 1 [] (pre ++ line :: post) = _
    rw [heq]
    simp only [parseNodesLines, hblank]
    congr 1
    omega
  refine ⟨hrej, ?_, ?_⟩
  · intro ids h
    rw [hrej] at h
    exact absurd h (by simp)
  · intro geoFile geoFeatures streets isBuilding isHouse isStreet isPoi cover
      buildIndex distribute
    exact geoObjects_rejected_eq geoFile geoFeatures (pre ++ line :: post) streets
      isBuilding isHouse isStreet isPoi cover buildIndex distribute
      (pre.length + 1) line hrej

/-- Witness for C10: the blank second line of a three-line file is rejected as
line 2 with empty content, and the run aborts. -/
theorem tokenless_line_rejected_witness :
    (firstToken "" = none ∧
      ∀ l ∈ (["10"] : List String), ((firstToken l).bind toUint64).isSome = true) ∧
    parseNodes (some (["10"] ++ "" :: ["7"])) = ParseOutcome.lineRejected 2 "" ∧
    generateGeoObjectsIndex "geo.dat" [] (some (some (["10"] ++ "" :: ["7"]))) none
        (fun _ => false) (fun _ => false) (fun _ => false) (fun _ => false)
        (fun _ => []) (fun _ => true) (fun _ fs => [fs])
      = (false, [RunEvent.nodesLineRejected 2 ""]) :=
  ⟨⟨by decide, by decide⟩,
    (tokenless_line_rejected ["10"] ["7"] "" (by decide) (by decide)).1,
    (tokenless_line_rejected ["10"] ["7"] "" (by decide) (by decide)).2.2 "geo.dat" []
      none (fun _ => false) (fun _ => false) (fun _ => false) (fun _ => false)
      (fun _ => []) (fun _ => true) (fun _ fs => [fs])⟩

/-- Claim C8: with the allow-poi switch wired as the source wires it (the
allow-list being non-empty), the geo-objects filter accepts a feature exactly
when it is a building, or carries an address, or street indexing is enabled
and it is a street, or the allow-list is non-empty and it is a POI whose
encoded id appears in the allow-list; in particular the POI with encoded
id 20 passes against the allow-list [10, 20, 30] and the POI with encoded
id 40 does not. -/
theorem geo_objects_filter_accepts_iff :
    (∀ (isBuilding isHouse isStreet isPoi : Feature → Bool) (nodeIds : List Nat)
        (allowStreet : Bool) (fb : Feature),
      featuresFilter isBuilding isHouse isStreet isPoi nodeIds allowStreet
          (!nodeIds.isEmpty) fb = true ↔
        (isBuilding fb = true ∨ isHouse fb = true ∨
          (allowStreet = true ∧ isStreet fb = true) ∨
          (nodeIds ≠ [] ∧ isPoi fb = true ∧ fb.osmId.GetEncodedId ∈ nodeIds))) ∧
    featuresFilter (fun _ => false) (fun _ => false) (fun _ => false) (fun _ => true)
      [10, 20, 30] false (!([10, 20, 30] : List Nat).isEmpty) (poiFeature 20) = true ∧
    featuresFilter (fun _ => false) (fun _ => false) (fun _ => false) (fun _ => true)
      [10, 20, 30] false (!([10, 20, 30] : List Nat).isEmpty) (poiFeature 40) = false := by
  refine ⟨?_, by decide, by decide⟩
  intro isBuilding isHouse isStreet isPoi nodeIds allowStreet fb
  cases nodeIds with
  | nil =>
    cases hb : isBuilding fb <;> cases hh : isHouse fb <;> cases hs : isStreet fb <;>
      cases hp : isPoi fb <;> cases allowStreet <;>
        simp [featuresFilter, hb, hh, hs, hp]
  | cons a as =>
    cases hb : isBuilding fb <;> cases hh : isHouse fb <;> cases hs : isStreet fb <;>
      cases hp : isPoi fb <;> cases allowStreet <;>
        simp [featuresFilter, hb, hh, hs, hp]

/-- Claim C9: with a streets source supplied and the allow-list step
succeeding, the run appends the geo-objects source and then the streets source
to the one temporary combined file, runs the single pipeline (chunk size 100)
over the concatenated feature stream, and removes the temporary file as the
last effect on every exit path, the pipeline's boolean - success or failure -
being returned unchanged. -/
theorem streets_merge_tmp_lifecycle
    (geoFile : String) (geoFeatures : List Feature)
    (nodesFile : Option (Option (List String)))
    (streetsFile : String) (streetsFeatures : List Feature)
    (isBuilding isHouse isStreet isPoi : Feature → Bool)
    (cover : LocalityObject → List CoveringEntry)
    (buildIndex : List CoveringEntry → Bool)
    (distribute : Nat → List Feature → List (List Feature))
    (nodeIds : List Nat)
    (hnodes : nodesOutcome nodesFile = ParseOutcome.success nodeIds) :
    ∃ ok : Bool,
      generateGeoObjectsIndex geoFile geoFeatures nodesFile
          (some (streetsFile, streetsFeatures)) isBuilding isHouse isStreet isPoi
          cover buildIndex distribute
        = (ok,
          [RunEvent.fileAppended geoFile (combinedTmpFile geoFile),
           RunEvent.fileAppended streetsFile (combinedTmpFile geoFile),
           RunEvent.pipelineRan (combinedTmpFile geoFile) 100 ok,
           RunEvent.tmpFileRemoved (combinedTmpFile geoFile)]) ∧
      ok = generateLocalityIndex
        (featuresFilter isBuilding isHouse isStreet isPoi nodeIds true (!nodeIds.isEmpty))
        cover buildIndex (distribute 100 (geoFeatures ++ streetsFeatures)) := by
  unfold generateGeoObjectsIndex
  rw [hnodes]
  exact ⟨_, rfl, rfl⟩

/-- Witness for C9: a concrete run with a failing index builder still ends by
removing the temporary combined file. -/
theorem streets_merge_tmp_lifecycle_witness :
    nodesOutcome none = ParseOutcome.success [] ∧
    ∃ ok : Bool,
      generateGeoObjectsIndex "dir/geo.dat" [squareAreaFeature] none
          (some ("dir/streets.dat", [collinearAreaFeature])) (fun _ => true)
          (fun _ => false) (fun _ => false) (fun _ => false)
          (fun obj => [(1, obj.id)]) (fun _ => false) (fun _ fs => [fs])
        = (ok,
          [RunEvent.fileAppended "dir/geo.dat" (combinedTmpFile "dir/geo.dat"),
           RunEvent.fileAppended "dir/streets.dat" (combinedTmpFile "dir/geo.dat"),
           RunEvent.pipelineRan (combinedTmpFile "dir/geo.dat") 100 ok,
           RunEvent.tmpFileRemoved (combinedTmpFile "dir/geo.dat")]) ∧
      ok = generateLocalityIndex
        (featuresFilter (fun _ => true) (fun _ => false) (fun _ => false) (fun _ => false)
          [] true (!([] : List Nat).isEmpty))
        (fun obj => [(1, obj.id)]) (fun _ => false)
        ((fun _ fs => [fs]) 100 ([squareAreaFeature] ++ [collinearAreaFeature])) :=
  ⟨rfl,
    streets_merge_tmp_lifecycle "dir/geo.dat" [squareAreaFeature] none "dir/streets.dat"
      [collinearAreaFeature] (fun _ => true) (fun _ => false) (fun _ => false)
      (fun _ => false) (fun obj => [(1, obj.id)]) (fun _ => false) (fun _ fs => [fs])
      [] rfl⟩

end Geocore
